import Mathlib

/-!
# Verification of the nanobot UI MCP endpoints

Shallow embedding of `src/ui/api/mcp.js`, which contains two serverless
handlers:

* a proxy endpoint (`POST /api/mcp`) that forwards the request body to an
  upstream MCP HTTP endpoint and relays the reply;
* a JSON-RPC shim (`POST /mcp/ui`) that answers bootstrap/administrative
  methods with canned data and bridges `tools/list` / `tools/call` to the
  proxy endpoint.

JavaScript values flowing through the handlers are modelled by a `Json`
inductive; JS truthiness, `||`, `??`, property access and `===`-against-a-
string-literal are modelled by dedicated functions.  Platform builtins
(`JSON.parse`, `fetch`, `Math.random`) are abstracted as parameters of the
handler functions, so every theorem quantifies over their behaviour.
-/

namespace Nanobot

/-- A JSON/JavaScript value (numbers as integers; the handlers never compute
with fractional numbers).  Object field lists are assumed duplicate-free, as
JS object keys are unique. -/
inductive Json where
  | null
  | bool (b : Bool)
  | num (n : Int)
  | str (s : String)
  | arr (elems : List Json)
  | obj (fields : List (String × Json))
deriving Repr

/-- Field lookup in an object field list (first match). -/
def lookupField : List (String × Json) → String → Option Json
  | [], _ => none
  | (k, v) :: rest, key => if k = key then some v else lookupField rest key

/-- JS property access `x.k` on a JSON value: a field of an object, otherwise
`undefined` (modelled as `none`). -/
def Json.getField : Json → String → Option Json
  | .obj fs, key => lookupField fs key
  | _, _ => none

/-- JS truthiness of a value: `null`, `false`, `0` and `""` are falsy;
arrays and objects are always truthy. -/
def Json.truthy : Json → Bool
  | .null => false
  | .bool b => b
  | .num n => n != 0
  | .str s => s != ""
  | .arr _ => true
  | .obj _ => true

/-- JS `x || d` where `x` may be `undefined` (`none`). -/
def jsOr (x : Option Json) (d : Json) : Json :=
  match x with
  | some j => if j.truthy then j else d
  | none => d

/-- JS truthiness of a possibly-`undefined` value (`!x` is its negation). -/
def jsTruthy (x : Option Json) : Bool :=
  match x with
  | some j => j.truthy
  | none => false

/-- JS `x ?? d` where `x` may be `undefined` (`none`): `d` exactly when `x`
is `null` or `undefined`. -/
def jsCoalesce (x : Option Json) (d : Json) : Json :=
  match x with
  | some .null => d
  | some j => j
  | none => d

/-- JS strict equality `v === lit` against a string literal: true exactly for
the equal string. -/
def Json.eqStr : Json → String → Bool
  | .str s, t => s = t
  | _, _ => false

mutual
/-- JS string coercion as in a template literal: strings verbatim, numbers in
decimal, `null`/booleans by name, arrays joined by commas (with `null`
elements rendered empty), plain objects as `[object Object]`. -/
def Json.jsToString : Json → String
  | .null => "null"
  | .bool b => cond b "true" "false"
  | .num n => toString n
  | .str s => s
  | .arr xs => String.intercalate "," (jsToStringElems xs)
  | .obj _ => "[object Object]"

/-- Array elements under JS string coercion (`null` becomes the empty
string inside an array join). -/
def jsToStringElems : List Json → List String
  | [] => []
  | .null :: xs => "" :: jsToStringElems xs
  | j :: xs => Json.jsToString j :: jsToStringElems xs
end

/-! ## The JSON-RPC UI shim (`POST /mcp/ui`, second handler in `src/ui/api/mcp.js`) -/

namespace McpShim

/-- An incoming HTTP request as the handler sees it: the HTTP verb, the
platform's pre-parsed `req.body` (when the platform populated it), and the
raw request body read from the stream otherwise. -/
structure Req where
  httpMethod : String
  preBody : Option Json
  rawBody : String

/-- Outcome of the single `fetch` to the internal `/api/mcp` endpoint: either
a reply (HTTP status and response text) or a thrown error, `String(e)` of the
thrown value. -/
inductive FetchOutcome where
  | ok (status : Int) (text : String)
  | err (msg : String)

/-- `readJson(req)`: the pre-parsed `req.body` when it is a (truthy) object,
else the raw body parsed as JSON, with `{}` for an empty raw body or a parse
failure.  `parse` abstracts the `JSON.parse` builtin (`none` = throws). -/
def readJson (parse : String → Option Json) (req : Req) : Json :=
  match req.preBody with
  | some j =>
    match j with
    | .obj fs => .obj fs
    | .arr xs => .arr xs
    | _ => if req.rawBody = "" then .obj [] else
        match parse req.rawBody with
        | some b => b
        | none => .obj []
  | none =>
    if req.rawBody = "" then .obj [] else
      match parse req.rawBody with
      | some b => b
      | none => .obj []

/-- Body of a JSON-RPC success envelope, as `rpcOk` serializes it. -/
def rpcOkBody (id result : Json) : Json :=
  .obj [("jsonrpc", .str "2.0"), ("id", id), ("result", result)]

/-- Body of a JSON-RPC error envelope, as `rpcErr` serializes it. -/
def rpcErrBody (id : Json) (code : Int) (message : String) : Json :=
  .obj [("jsonrpc", .str "2.0"), ("id", id),
        ("error", .obj [("code", .num code), ("message", .str message)])]

/-- An HTTP response: status code and JSON body (`none` for an empty
`res.end()`). -/
structure Resp where
  status : Int
  body : Option Json
deriving Repr

/-- `rpcOk(res, id, result)`: HTTP 200 with a success envelope. -/
def rpcOk (id result : Json) : Resp :=
  ⟨200, some (rpcOkBody id result)⟩

/-- `rpcErr(res, id, code, message)`: HTTP 200 with an error envelope. -/
def rpcErr (id : Json) (code : Int) (message : String) : Resp :=
  ⟨200, some (rpcErrBody id code message)⟩

/-- The value `postUpstream` yields from an upstream reply: the response
text parsed as JSON, or `{upstreamText, status}` when it does not parse. -/
def upstreamVal (parse : String → Option Json) (status : Int)
    (text : String) : Json :=
  match parse text with
  | some j => j
  | none => .obj [("upstreamText", .str text), ("status", .num status)]

/-- `postUpstream(payload)`: fetch the internal endpoint, read its text, and
parse it as JSON, falling back to `{upstreamText, status}`; a thrown fetch
error propagates (modelled as `Except.error`). -/
def postUpstream (parse : String → Option Json) (f : FetchOutcome) :
    Except String Json :=
  match f with
  | .ok status text => .ok (upstreamVal parse status text)
  | .err m => .error m

/-- `upstream.result ?? upstream`: the `result` field when it is neither
`null` nor absent, else the whole payload. -/
def resultOrSelf (u : Json) : Json :=
  match u.getField "result" with
  | some .null => u
  | some v => v
  | none => u

/-- Body of the outer `catch` response: `{error:'Unhandled error', details}`. -/
def unhandledBody (details : String) : Json :=
  .obj [("error", .str "Unhandled error"), ("details", .str details)]

/-- The canned `list_agents` result (one stub Stripe agent). -/
def listAgentsResult : Json :=
  .obj [("agents", .arr [
    .obj [
      ("id", .str "stripe"),
      ("title", .str "Stripe MCP"),
      ("description", .str "Demo MCP via @stripe/mcp"),
      ("starterMessages", .arr [
        .str "List products",
        .str "Create a product named \"Premium Plan\"",
        .str "Show me the latest prices"])]])]

/-- The handler's observable outcome: the HTTP response and the list of
payloads posted to the internal `/api/mcp` endpoint (empty = no upstream
call was made). -/
structure HandlerOut where
  resp : Resp
  sent : List Json
deriving Repr

/-- `const id = body.id ?? null`. -/
def reqId (body : Json) : Json :=
  jsCoalesce (body.getField "id") .null

/-- `const method = body.method || 'initialize'`. -/
def reqMethod (body : Json) : Json :=
  jsOr (body.getField "method") (.str "initialize")

/-- `const params = body.params || {}`. -/
def reqParams (body : Json) : Json :=
  jsOr (body.getField "params") (.obj [])

/-- The method-dispatch part of the handler, acting on the parsed body.
`rand` abstracts the `Math.random().toString(36)` string used by
`create_chat` (the chat id is its `slice(2)`); `parse` abstracts
`JSON.parse`; `f` the single upstream `fetch`. -/
def handleBody (parse : String → Option Json) (rand : String)
    (f : FetchOutcome) (body : Json) : HandlerOut :=
  if (reqMethod body).eqStr "initialize" then
    ⟨rpcOk (reqId body) (.obj [("ok", .bool true)]), []⟩
  else if (reqMethod body).eqStr "tools/list" then
    match postUpstream parse f with
    | .ok u => ⟨rpcOk (reqId body) (resultOrSelf u),
        [.obj [("action", .str "tools/list")]]⟩
    | .error e => ⟨⟨500, some (unhandledBody e)⟩,
        [.obj [("action", .str "tools/list")]]⟩
  else if (reqMethod body).eqStr "tools/call" then
    match (reqParams body).getField "name" with
    | some v =>
      if v.truthy then
        match postUpstream parse f with
        | .ok u => ⟨rpcOk (reqId body) (resultOrSelf u),
            [.obj [("action", .str "tools/call"), ("name", v),
              ("arguments",
                jsOr ((reqParams body).getField "arguments") (.obj []))]]⟩
        | .error e => ⟨⟨500, some (unhandledBody e)⟩,
            [.obj [("action", .str "tools/call"), ("name", v),
              ("arguments",
                jsOr ((reqParams body).getField "arguments") (.obj []))]]⟩
      else ⟨rpcErr (reqId body) (-32602) "Missing 'name' for tools/call", []⟩
    | none => ⟨rpcErr (reqId body) (-32602) "Missing 'name' for tools/call",
        []⟩
  else if (reqMethod body).eqStr "list_agents" then
    ⟨rpcOk (reqId body) listAgentsResult, []⟩
  else if (reqMethod body).eqStr "list_chats" then
    ⟨rpcOk (reqId body) (.obj [("chats", .arr [])]), []⟩
  else if (reqMethod body).eqStr "create_chat" then
    ⟨rpcOk (reqId body) (.obj [("id", .str (rand.drop 2))]), []⟩
  else if (reqMethod body).eqStr "update_chat" ||
      (reqMethod body).eqStr "delete_chat" then
    ⟨rpcOk (reqId body) (.obj [("ok", .bool true)]), []⟩
  else if (reqMethod body).eqStr "prompts/list" then
    ⟨rpcOk (reqId body) (.obj [("prompts", .arr [])]), []⟩
  else
    ⟨rpcErr (reqId body) (-32601)
      ("Method not found: " ++ (reqMethod body).jsToString), []⟩

/-- The full shim handler: CORS preflight and non-POST branches, then body
parsing and method dispatch. -/
def handler (parse : String → Option Json) (rand : String)
    (f : FetchOutcome) (req : Req) : HandlerOut :=
  if req.httpMethod = "OPTIONS" then ⟨⟨204, none⟩, []⟩
  else if req.httpMethod ≠ "POST" then
    ⟨⟨405, some (.obj [("error", .str "Method Not Allowed. Use POST.")])⟩, []⟩
  else handleBody parse rand f (readJson parse req)

end McpShim

/-! ## The upstream proxy (`POST /api/mcp`, first handler in
`src/ui/api/mcp.js`) -/

namespace McpProxy

/-- Whether `pat` occurs at the start of `cs` (character-list version of
`String.startsWith`). -/
def startsWithL : List Char → List Char → Bool
  | [], _ => true
  | _ :: _, [] => false
  | a :: as, b :: bs => a = b && startsWithL as bs

/-- Whether `pat` occurs anywhere inside `cs`: JS `hay.includes(pat)` on
character lists. -/
def hasSub (pat : List Char) : List Char → Bool
  | [] => startsWithL pat []
  | c :: cs => startsWithL pat (c :: cs) || hasSub pat cs

/-- JS `hay.includes(pat)` on strings. -/
def strIncludes (hay pat : String) : Bool :=
  hasSub pat.data hay.data

/-- A proxy response body: empty (`res.end()`), raw text forwarded verbatim
(`res.end(text)`), or a serialized JSON value (`res.end(JSON.stringify(j))`).
The raw/json distinction records whether the upstream bytes were forwarded
unchanged. -/
inductive Body where
  | empty
  | raw (s : String)
  | json (j : Json)
deriving Repr

/-- A proxy HTTP response: status code and body. -/
structure Resp where
  status : Int
  body : Body
deriving Repr

/-- Outcome of the `fetch` to the upstream MCP endpoint: a reply (HTTP
status, `content-type` header value — `""` when absent — and response text)
or a thrown error, `String(err)` of the thrown value. -/
inductive FetchOutcome where
  | ok (status : Int) (contentType : String) (text : String)
  | err (msg : String)

/-- The proxy handler.  Body parsing (`readBody`) is modelled only by its
outcome: `bodyErr = some e` when reading/parsing the incoming body threw
(the 400 branch), `none` otherwise — the forwarded response does not depend
on the parsed body, which is only re-serialized into the upstream request
that `f` abstracts. -/
def handler (bodyErr : Option String) (f : FetchOutcome)
    (httpMethod : String) : Resp :=
  if httpMethod = "OPTIONS" then ⟨204, .empty⟩
  else if httpMethod ≠ "POST" then
    ⟨405, .json (.obj [("error", .str "Method Not Allowed. Use POST.")])⟩
  else
    match bodyErr with
    | some e =>
      ⟨400, .json (.obj [("error", .str "Invalid JSON body"),
                         ("details", .str e)])⟩
    | none =>
      match f with
      | .ok status ct text =>
        if strIncludes ct.toLower "application/json" then
          ⟨status, .raw text⟩
        else
          ⟨status, .json (.obj [("upstreamText", .str text)])⟩
      | .err m =>
        ⟨502, .json (.obj [("error", .str "Bad Gateway"),
                           ("details", .str m)])⟩

end McpProxy

/-! ## SessionDriver (spec section 4.4)

The subprocess bridge itself (`ProcessSupervisor`, `RequestCorrelator`,
`SessionDriver`) is not among the files under `src/`; the definitions below
are modelled from the spec's description of `SessionDriver` so that its
cleanup obligation can be stated and checked. -/

namespace SessionDriver

/-- Modelled from the spec: settlement of one awaited request (the handshake
or the single business call) — a result, a structured failure, or a timeout
(per-request or the whole-exchange hard timeout). -/
inductive StepOutcome where
  | ok (result : Json)
  | err (msg : String)
  | timeout

/-- Modelled from the spec: the external action driving the session — a pure
acknowledgement, a discovery call, or a named invocation with arguments. -/
inductive ExternalAction where
  | ack
  | discover
  | invoke (name : String) (args : Json)

/-- Modelled from the spec: observable events of one session, in order. -/
inductive SessEvent where
  | spawn
  | sendHandshake
  | sendCall
  | closeStdin
  | kill
deriving DecidableEq, Repr

/-- Modelled from the spec: how the session ended. -/
inductive SessResult where
  | completed (result : Json)
  | failed (msg : String)
deriving Repr

/-- Modelled from the spec: the environment's behaviour during one session —
how the handshake settles and how the business call settles (each possibly
by timeout, which also stands for the whole-exchange hard timeout firing
while that request is outstanding). -/
structure Oracle where
  handshake : StepOutcome
  call : StepOutcome

/-- Modelled from the spec: the cleanup phase — close the child's input
stream, then forcibly terminate it. -/
def cleanup : List SessEvent :=
  [.closeStdin, .kill]

/-- Modelled from the spec: the exchange up to (not including) cleanup:
spawn, handshake, then — only if the handshake succeeded — at most one
business call depending on the external action. -/
def exchange (act : ExternalAction) (o : Oracle) :
    List SessEvent × SessResult :=
  match o.handshake with
  | .err m => ([.spawn, .sendHandshake], .failed ("handshake failed: " ++ m))
  | .timeout => ([.spawn, .sendHandshake], .failed "handshake timed out")
  | .ok _ =>
    match act with
    | .ack => ([.spawn, .sendHandshake], .completed .null)
    | .discover | .invoke _ _ =>
      match o.call with
      | .ok r => ([.spawn, .sendHandshake, .sendCall], .completed r)
      | .err m =>
        ([.spawn, .sendHandshake, .sendCall], .failed ("call failed: " ++ m))
      | .timeout =>
        ([.spawn, .sendHandshake, .sendCall], .failed "call timed out")

/-- Modelled from the spec: one whole session — the exchange followed by
the unconditional cleanup phase (scoped-acquisition semantics: cleanup on
every exit path). -/
def runSession (act : ExternalAction) (o : Oracle) :
    List SessEvent × SessResult :=
  ((exchange act o).1 ++ cleanup, (exchange act o).2)

/-- Whether the child process is running after a trace of events: spawned
and not yet killed. -/
def processRunning (trace : List SessEvent) : Bool :=
  trace.foldl
    (fun r e => match e with
      | .spawn => true
      | .kill => false
      | _ => r)
    false

end SessionDriver

/-! ## Helper lemmas -/

theorem Json.eqStr_iff {v : Json} {t : String} :
    v.eqStr t = true ↔ v = .str t := by
  cases v <;> simp [Json.eqStr]

theorem Json.eqStr_false {v : Json} {t : String} (h : v ≠ .str t) :
    v.eqStr t = false := by
  cases v <;> simp_all [Json.eqStr]

theorem McpShim.readJson_default {parse : String → Option Json}
    {req : McpShim.Req} (hpre : req.preBody = none)
    (hraw : req.rawBody = "" ∨ parse req.rawBody = none) :
    McpShim.readJson parse req = .obj [] := by
  rcases hraw with h | h <;> simp [McpShim.readJson, hpre, h]

/-- For a POST request the handler is `handleBody` on the parsed body. -/
theorem McpShim.handler_post {parse : String → Option Json} {rand : String}
    {f : McpShim.FetchOutcome} {req : McpShim.Req}
    (hpost : req.httpMethod = "POST") :
    McpShim.handler parse rand f req =
      McpShim.handleBody parse rand f (McpShim.readJson parse req) := by
  simp [McpShim.handler, hpost]

theorem McpShim.handleBody_no_method {parse : String → Option Json}
    {rand : String} {f : McpShim.FetchOutcome} {body : Json}
    (h : body.getField "method" = none) :
    McpShim.handleBody parse rand f body =
      ⟨McpShim.rpcOk (McpShim.reqId body) (.obj [("ok", .bool true)]), []⟩ := by
  simp [McpShim.handleBody, McpShim.reqMethod, h, jsOr, Json.eqStr]

/-! ## Claim theorems -/

/-- C9: a POST request whose body is empty, is not valid JSON, or lacks a
`method` field is treated as `initialize`: the shim replies with the success
envelope `{jsonrpc:"2.0", id, result:{ok:true}}`, with `id` taken from the
body (`null` in the empty/invalid cases, where the body parses to `{}`), and
makes no upstream call. -/
theorem C9_default_method (parse : String → Option Json) (rand : String)
    (f : McpShim.FetchOutcome) (req : McpShim.Req)
    (hpost : req.httpMethod = "POST")
    (h : (req.preBody = none ∧ (req.rawBody = "" ∨ parse req.rawBody = none)) ∨
      (McpShim.readJson parse req).getField "method" = none) :
    McpShim.handler parse rand f req =
      ⟨McpShim.rpcOk (McpShim.reqId (McpShim.readJson parse req))
         (.obj [("ok", .bool true)]), []⟩ ∧
    (req.preBody = none → (req.rawBody = "" ∨ parse req.rawBody = none) →
      McpShim.reqId (McpShim.readJson parse req) = .null) := by
  constructor
  · rw [McpShim.handler_post hpost]
    rcases h with ⟨hpre, hraw⟩ | hm
    · rw [McpShim.readJson_default hpre hraw]
      exact McpShim.handleBody_no_method rfl
    · exact McpShim.handleBody_no_method hm
  · intro hpre hraw
    rw [McpShim.readJson_default hpre hraw]
    rfl

/-- Witness for C9 at a concrete request: POST, no pre-parsed body, raw body
`not json` that fails to parse. -/
theorem C9_default_method_witness :
    McpShim.handler (fun _ => none) "" (.err "") ⟨"POST", none, "not json"⟩ =
      ⟨McpShim.rpcOk .null (.obj [("ok", .bool true)]), []⟩ :=
  (C9_default_method (fun _ => none) "" (.err "") ⟨"POST", none, "not json"⟩ rfl
    (Or.inl ⟨rfl, Or.inr rfl⟩)).1

/-- C8: a POST request with method `tools/call` whose params carry no `name`
field gets the error envelope with code `-32602` and message
`Missing 'name' for tools/call`, and no upstream call is made. -/
theorem C8_missing_name (parse : String → Option Json) (rand : String)
    (f : McpShim.FetchOutcome) (req : McpShim.Req)
    (hpost : req.httpMethod = "POST")
    (hm : McpShim.reqMethod (McpShim.readJson parse req) = .str "tools/call")
    (hn : (McpShim.reqParams (McpShim.readJson parse req)).getField "name" =
      none) :
    McpShim.handler parse rand f req =
      ⟨McpShim.rpcErr (McpShim.reqId (McpShim.readJson parse req))
         (-32602) "Missing 'name' for tools/call", []⟩ := by
  rw [McpShim.handler_post hpost]
  simp [McpShim.handleBody, hm, hn, Json.eqStr]

/-- Witness for C8 at a concrete request: `tools/call` with empty params. -/
theorem C8_missing_name_witness :
    McpShim.handler (fun _ => none) "" (.err "")
      ⟨"POST", some (.obj [("id", .num 4), ("method", .str "tools/call"),
        ("params", .obj [])]), ""⟩ =
      ⟨McpShim.rpcErr (.num 4) (-32602) "Missing 'name' for tools/call",
        []⟩ :=
  C8_missing_name (fun _ => none) "" (.err "")
    ⟨"POST", some (.obj [("id", .num 4), ("method", .str "tools/call"),
      ("params", .obj [])]), ""⟩ rfl rfl rfl

/-- The stub (bootstrap/administrative) method names of claim C3. -/
def stubMethods : List String :=
  ["initialize", "list_agents", "list_chats", "create_chat", "update_chat",
   "delete_chat", "prompts/list"]

/-- C3: a POST request whose `method` field is one of the stub methods gets a
success envelope; no upstream payload is ever sent, and the response does not
depend on the upstream fetch behaviour (it is built from local data only). -/
theorem C3_stubs_local (parse : String → Option Json) (rand : String)
    (f f' : McpShim.FetchOutcome) (req : McpShim.Req) (m : String)
    (hpost : req.httpMethod = "POST")
    (hm : (McpShim.readJson parse req).getField "method" = some (.str m))
    (hset : m ∈ stubMethods) :
    McpShim.handler parse rand f req = McpShim.handler parse rand f' req ∧
    (McpShim.handler parse rand f req).sent = [] ∧
    ∃ r, (McpShim.handler parse rand f req).resp =
      McpShim.rpcOk (McpShim.reqId (McpShim.readJson parse req)) r := by
  rw [McpShim.handler_post hpost, McpShim.handler_post hpost]
  simp only [stubMethods, List.mem_cons, List.not_mem_nil, or_false] at hset
  rcases hset with rfl | rfl | rfl | rfl | rfl | rfl | rfl <;>
    refine ⟨?_, ?_, ?_⟩ <;>
    simp [McpShim.handleBody, McpShim.reqMethod, hm, jsOr, Json.truthy,
      Json.eqStr, McpShim.rpcOk, McpShim.rpcOkBody]

/-- Witness for C3 at a concrete request: `list_chats`. -/
theorem C3_stubs_local_witness :
    McpShim.handler (fun _ => none) "" (.err "boom")
        ⟨"POST", some (.obj [("id", .num 6), ("method", .str "list_chats")]),
          ""⟩ =
      McpShim.handler (fun _ => none) "" (.ok 200 "x")
        ⟨"POST", some (.obj [("id", .num 6), ("method", .str "list_chats")]),
          ""⟩ ∧
    (McpShim.handler (fun _ => none) "" (.err "boom")
        ⟨"POST", some (.obj [("id", .num 6), ("method", .str "list_chats")]),
          ""⟩).sent = [] ∧
    ∃ r, (McpShim.handler (fun _ => none) "" (.err "boom")
        ⟨"POST", some (.obj [("id", .num 6), ("method", .str "list_chats")]),
          ""⟩).resp = McpShim.rpcOk (.num 6) r :=
  C3_stubs_local (fun _ => none) "" (.err "boom") (.ok 200 "x")
    ⟨"POST", some (.obj [("id", .num 6), ("method", .str "list_chats")]), ""⟩
    "list_chats" rfl rfl (by simp [stubMethods])

/-- The recognized method names of claim C1 (stubs plus the two
passthrough methods). -/
def recognizedMethods : List String :=
  ["initialize", "tools/list", "tools/call", "list_agents", "list_chats",
   "create_chat", "update_chat", "delete_chat", "prompts/list"]

/-- Counterexample to C1 as stated: the request `{id:1, method:""}` has a
`method` field that is not one of the recognized methods, yet the shim
answers with the `initialize` success envelope (the falsy method name falls
back to `initialize` via `body.method || 'initialize'`), not with a `-32601`
error — the response carries no `error` member at all. -/
theorem C1_cex :
    "" ∉ recognizedMethods ∧
    McpShim.handler (fun _ => none) "" (.err "")
        ⟨"POST", some (.obj [("id", .num 1), ("method", .str "")]), ""⟩ =
      ⟨McpShim.rpcOk (.num 1) (.obj [("ok", .bool true)]), []⟩ ∧
    (McpShim.rpcOkBody (.num 1) (.obj [("ok", .bool true)])).getField
        "error" = none :=
  ⟨by simp [recognizedMethods], rfl, rfl⟩

/-- C1 (amended): a POST request whose `method` field is truthy and not one
of the recognized methods gets the error envelope with code `-32601`,
message `Method not found: <method>`, and the request's id; no upstream call
is made. -/
theorem C1_method_not_found (parse : String → Option Json) (rand : String)
    (f : McpShim.FetchOutcome) (req : McpShim.Req) (v : Json)
    (hpost : req.httpMethod = "POST")
    (hm : (McpShim.readJson parse req).getField "method" = some v)
    (htr : v.truthy = true)
    (hnin : ∀ m ∈ recognizedMethods, v ≠ .str m) :
    McpShim.handler parse rand f req =
      ⟨McpShim.rpcErr (McpShim.reqId (McpShim.readJson parse req)) (-32601)
         ("Method not found: " ++ v.jsToString), []⟩ := by
  rw [McpShim.handler_post hpost]
  have h1 := Json.eqStr_false (hnin "initialize" (by simp [recognizedMethods]))
  have h2 := Json.eqStr_false (hnin "tools/list" (by simp [recognizedMethods]))
  have h3 := Json.eqStr_false (hnin "tools/call" (by simp [recognizedMethods]))
  have h4 := Json.eqStr_false (hnin "list_agents" (by simp [recognizedMethods]))
  have h5 := Json.eqStr_false (hnin "list_chats" (by simp [recognizedMethods]))
  have h6 := Json.eqStr_false (hnin "create_chat" (by simp [recognizedMethods]))
  have h7 := Json.eqStr_false (hnin "update_chat" (by simp [recognizedMethods]))
  have h8 := Json.eqStr_false (hnin "delete_chat" (by simp [recognizedMethods]))
  have h9 := Json.eqStr_false (hnin "prompts/list" (by simp [recognizedMethods]))
  simp [McpShim.handleBody, McpShim.reqMethod, hm, jsOr, htr,
    h1, h2, h3, h4, h5, h6, h7, h8, h9]

/-- Witness for C1 (amended) at a concrete request with the unrecognized
method `frobnicate`. -/
theorem C1_method_not_found_witness :
    McpShim.handler (fun _ => none) "" (.err "")
        ⟨"POST", some (.obj [("id", .num 9), ("method", .str "frobnicate")]),
          ""⟩ =
      ⟨McpShim.rpcErr (.num 9) (-32601) "Method not found: frobnicate", []⟩ :=
  C1_method_not_found (fun _ => none) "" (.err "")
    ⟨"POST", some (.obj [("id", .num 9), ("method", .str "frobnicate")]), ""⟩
    (.str "frobnicate") rfl rfl rfl (by simp [recognizedMethods])

/-- Counterexample to C2 as stated: on a `tools/list` request whose upstream
fetch throws, the shim answers HTTP 500 with body
`{error:'Unhandled error', details}` — not a JSON-RPC envelope: the body has
no `jsonrpc` member and carries no `id`. -/
theorem C2_cex :
    McpShim.handler (fun _ => none) "" (.err "TypeError: fetch failed")
        ⟨"POST", some (.obj [("id", .num 7), ("method", .str "tools/list")]),
          ""⟩ =
      ⟨⟨500, some (McpShim.unhandledBody "TypeError: fetch failed")⟩,
        [.obj [("action", .str "tools/list")]]⟩ ∧
    (McpShim.unhandledBody "TypeError: fetch failed").getField "jsonrpc" =
      none ∧
    (McpShim.unhandledBody "TypeError: fetch failed").getField "id" = none :=
  ⟨rfl, rfl, rfl⟩

theorem McpShim.postUpstream_err {parse : String → Option Json}
    {f : McpShim.FetchOutcome} {e : String}
    (h : McpShim.postUpstream parse f = .error e) : f = .err e := by
  cases f <;> simp_all [McpShim.postUpstream]

/-- The three possible response shapes of the shim: a success envelope, an
error envelope (both with the given id), or — only when the fetch threw —
the 500 `Unhandled error` body. -/
def McpShim.EnvelopeShape (f : McpShim.FetchOutcome) (id : Json)
    (out : McpShim.HandlerOut) : Prop :=
  (∃ r, out.resp = McpShim.rpcOk id r) ∨
  (∃ c m, out.resp = McpShim.rpcErr id c m) ∨
  (∃ e, f = .err e ∧ out.resp = ⟨500, some (McpShim.unhandledBody e)⟩)

theorem McpShim.handleBody_envelope (parse : String → Option Json)
    (rand : String) (f : McpShim.FetchOutcome) (body : Json) :
    McpShim.EnvelopeShape f (McpShim.reqId body)
      (McpShim.handleBody parse rand f body) := by
  unfold McpShim.handleBody
  repeat' split
  all_goals first
    | exact Or.inl ⟨_, rfl⟩
    | exact Or.inr (Or.inl ⟨_, _, rfl⟩)
    | (rename_i heq
       exact Or.inr (Or.inr ⟨_, McpShim.postUpstream_err heq, rfl⟩))

/-- C2 (amended): on every POST request the shim's response is either a
JSON-RPC envelope — success or error — carrying the request's id (`null`
when the request had none), or, when the upstream fetch throws, the HTTP 500
body `{error:'Unhandled error', details}`, which is not an envelope. -/
theorem C2_envelope (parse : String → Option Json) (rand : String)
    (f : McpShim.FetchOutcome) (req : McpShim.Req)
    (hpost : req.httpMethod = "POST") :
    (∃ r, (McpShim.handler parse rand f req).resp =
        McpShim.rpcOk (McpShim.reqId (McpShim.readJson parse req)) r) ∨
    (∃ c m, (McpShim.handler parse rand f req).resp =
        McpShim.rpcErr (McpShim.reqId (McpShim.readJson parse req)) c m) ∨
    (∃ e, f = .err e ∧ (McpShim.handler parse rand f req).resp =
        ⟨500, some (McpShim.unhandledBody e)⟩) := by
  rw [McpShim.handler_post hpost]
  exact McpShim.handleBody_envelope parse rand f (McpShim.readJson parse req)

/-- Witness for C2 (amended) at a concrete request (`list_chats`, id 6). -/
theorem C2_envelope_witness :
    (∃ r, (McpShim.handler (fun _ => none) "" (.err "boom")
        ⟨"POST", some (.obj [("id", .num 6), ("method", .str "list_chats")]),
          ""⟩).resp = McpShim.rpcOk (.num 6) r) ∨
    (∃ c m, (McpShim.handler (fun _ => none) "" (.err "boom")
        ⟨"POST", some (.obj [("id", .num 6), ("method", .str "list_chats")]),
          ""⟩).resp = McpShim.rpcErr (.num 6) c m) ∨
    (∃ e, McpShim.FetchOutcome.err "boom" = .err e ∧
      (McpShim.handler (fun _ => none) "" (.err "boom")
        ⟨"POST", some (.obj [("id", .num 6), ("method", .str "list_chats")]),
          ""⟩).resp = ⟨500, some (McpShim.unhandledBody e)⟩) :=
  C2_envelope (fun _ => none) "" (.err "boom")
    ⟨"POST", some (.obj [("id", .num 6), ("method", .str "list_chats")]), ""⟩
    rfl

theorem McpShim.resultOrSelf_some {u v : Json}
    (h : u.getField "result" = some v) (hv : v ≠ .null) :
    McpShim.resultOrSelf u = v := by
  unfold McpShim.resultOrSelf
  rw [h]
  cases v <;> simp_all

theorem McpShim.resultOrSelf_none {u : Json}
    (h : u.getField "result" = none) : McpShim.resultOrSelf u = u := by
  simp [McpShim.resultOrSelf, h]

theorem McpShim.resultOrSelf_null {u : Json}
    (h : u.getField "result" = some .null) : McpShim.resultOrSelf u = u := by
  simp [McpShim.resultOrSelf, h]

/-- Counterexample to C4 as stated: on a `tools/list` request whose upstream
reply is `{"result": null}` — a reply that does contain a `result` field —
the shim's JSON-RPC result is the whole payload `{"result": null}`, not the
field's value `null` (`upstream.result ?? upstream` also falls back on a
`null` result). -/
theorem C4_cex :
    McpShim.handler (fun _ => some (.obj [("result", .null)])) "" (.ok 200 "u")
        ⟨"POST", some (.obj [("id", .num 2), ("method", .str "tools/list")]),
          ""⟩ =
      ⟨McpShim.rpcOk (.num 2) (.obj [("result", .null)]),
        [.obj [("action", .str "tools/list")]]⟩ ∧
    (Json.obj [("result", .null)]).getField "result" = some .null ∧
    Json.obj [("result", .null)] ≠ Json.null :=
  ⟨rfl, rfl, by simp⟩

/-- C4 (amended): a POST request with method `tools/list`, or `tools/call`
with a truthy `name`, whose upstream fetch returns a reply, sends exactly
the bridged payload upstream, and unwraps the reply `u` into the envelope:
the JSON-RPC result is `u.result` when that field is present and non-`null`,
and the whole payload `u` when the field is absent — or `null`, which the
`??` fallback treats as absent. -/
theorem C4_passthrough (parse : String → Option Json) (rand : String)
    (s : Int) (t : String) (req : McpShim.Req)
    (hpost : req.httpMethod = "POST") :
    (McpShim.reqMethod (McpShim.readJson parse req) = .str "tools/list" →
      (McpShim.handler parse rand (.ok s t) req).sent =
        [.obj [("action", .str "tools/list")]] ∧
      McpShim.handler parse rand (.ok s t) req =
        ⟨McpShim.rpcOk (McpShim.reqId (McpShim.readJson parse req))
           (McpShim.resultOrSelf (McpShim.upstreamVal parse s t)),
         [.obj [("action", .str "tools/list")]]⟩) ∧
    (∀ v, McpShim.reqMethod (McpShim.readJson parse req) = .str "tools/call" →
      (McpShim.reqParams (McpShim.readJson parse req)).getField "name" =
        some v →
      v.truthy = true →
      (McpShim.handler parse rand (.ok s t) req).sent =
        [.obj [("action", .str "tools/call"), ("name", v),
          ("arguments",
            jsOr ((McpShim.reqParams (McpShim.readJson parse req)).getField
              "arguments") (.obj []))]] ∧
      (McpShim.handler parse rand (.ok s t) req).resp =
        McpShim.rpcOk (McpShim.reqId (McpShim.readJson parse req))
          (McpShim.resultOrSelf (McpShim.upstreamVal parse s t))) ∧
    (∀ w, (McpShim.upstreamVal parse s t).getField "result" = some w →
      w ≠ .null →
      McpShim.resultOrSelf (McpShim.upstreamVal parse s t) = w) ∧
    ((McpShim.upstreamVal parse s t).getField "result" = none →
      McpShim.resultOrSelf (McpShim.upstreamVal parse s t) =
        McpShim.upstreamVal parse s t) ∧
    ((McpShim.upstreamVal parse s t).getField "result" = some .null →
      McpShim.resultOrSelf (McpShim.upstreamVal parse s t) =
        McpShim.upstreamVal parse s t) := by
  refine ⟨?_, ?_, fun w hw hnull => McpShim.resultOrSelf_some hw hnull,
    fun h => McpShim.resultOrSelf_none h, fun h => McpShim.resultOrSelf_null h⟩
  · intro hm
    rw [McpShim.handler_post hpost]
    simp [McpShim.handleBody, hm, Json.eqStr, McpShim.postUpstream]
  · intro v hm hn htr
    rw [McpShim.handler_post hpost]
    simp [McpShim.handleBody, hm, hn, htr, Json.eqStr, McpShim.postUpstream]

/-- Witness for C4 (amended): a concrete `tools/list` request whose upstream
reply is `{"result": {"tools": ["a"]}}`; the shim result is the unwrapped
`{"tools": ["a"]}`. -/
theorem C4_passthrough_witness :
    McpShim.handler (fun _ => some (.obj [("result",
        .obj [("tools", .arr [.str "a"])])])) "" (.ok 200 "u")
        ⟨"POST", some (.obj [("id", .num 2), ("method", .str "tools/list")]),
          ""⟩ =
      ⟨McpShim.rpcOk (.num 2) (.obj [("tools", .arr [.str "a"])]),
        [.obj [("action", .str "tools/list")]]⟩ := by
  have h := C4_passthrough (fun _ => some (.obj [("result",
      .obj [("tools", .arr [.str "a"])])])) "" 200 "u"
    ⟨"POST", some (.obj [("id", .num 2), ("method", .str "tools/list")]), ""⟩
    rfl
  have h2 := (h.1 rfl).2
  rwa [h.2.2.1 (.obj [("tools", .arr [.str "a"])]) rfl (by simp)] at h2

theorem McpShim.postUpstream_ok {parse : String → Option Json}
    {f : McpShim.FetchOutcome} {u : Json}
    (h : McpShim.postUpstream parse f = .ok u) :
    ∀ s t, f = .ok s t → u = McpShim.upstreamVal parse s t := by
  cases f <;> simp_all [McpShim.postUpstream]

set_option maxHeartbeats 1600000 in
/-- Either no upstream call is made, or the response is determined by the
fetch outcome: an unwrapped success envelope for a reply, the 500
`Unhandled error` body for a thrown fetch. -/
theorem McpShim.handleBody_sent (parse : String → Option Json)
    (rand : String) (f : McpShim.FetchOutcome) (body : Json) :
    (McpShim.handleBody parse rand f body).sent = [] ∨
    ((∀ s t, f = .ok s t → (McpShim.handleBody parse rand f body).resp =
        McpShim.rpcOk (McpShim.reqId body)
          (McpShim.resultOrSelf (McpShim.upstreamVal parse s t))) ∧
     (∀ e, f = .err e → (McpShim.handleBody parse rand f body).resp =
        ⟨500, some (McpShim.unhandledBody e)⟩)) := by
  cases f with
  | ok s t =>
    unfold McpShim.handleBody
    simp only [McpShim.postUpstream]
    repeat' split
    all_goals try exact Or.inl rfl
    all_goals refine Or.inr ⟨fun s' t' hf => ?_, fun e hf => ?_⟩
    all_goals cases hf
    all_goals rfl
  | err e =>
    unfold McpShim.handleBody
    simp only [McpShim.postUpstream]
    repeat' split
    all_goals try exact Or.inl rfl
    all_goals refine Or.inr ⟨fun s' t' hf => ?_, fun e' hf => ?_⟩
    all_goals cases hf
    all_goals rfl

/-- Counterexample to C5 as stated: on a `tools/call` request whose upstream
reply is the failure shape `{error:"boom", logs:[]}`, the shim returns a
SUCCESS envelope whose `result` is that failure object — the response has no
`error` member, so the failure did not surface as a structured error
object. -/
theorem C5_cex :
    McpShim.handler
        (fun _ => some (.obj [("error", .str "boom"), ("logs", .arr [])]))
        "" (.ok 200 "u")
        ⟨"POST", some (.obj [("id", .num 3), ("method", .str "tools/call"),
          ("params", .obj [("name", .str "x")])]), ""⟩ =
      ⟨McpShim.rpcOk (.num 3)
          (.obj [("error", .str "boom"), ("logs", .arr [])]),
        [.obj [("action", .str "tools/call"), ("name", .str "x"),
          ("arguments", .obj [])]]⟩ ∧
    (McpShim.rpcOkBody (.num 3)
        (.obj [("error", .str "boom"), ("logs", .arr [])])).getField
      "error" = none ∧
    (McpShim.rpcOkBody (.num 3)
        (.obj [("error", .str "boom"), ("logs", .arr [])])).getField
      "result" =
      some (.obj [("error", .str "boom"), ("logs", .arr [])]) :=
  ⟨rfl, rfl, rfl⟩

/-- C5 (amended): every POST request gets a response with a body (no path
terminates the host); an exception thrown while handling an upstream
exchange surfaces as the structured error body `{error:'Unhandled error',
details}` with HTTP 500; but an upstream reply of the failure shape
`{error, logs}` — a reply without a `result` field — does not surface as an
error: it is forwarded whole as the `result` of a success envelope. -/
theorem C5_failures (parse : String → Option Json) (rand : String)
    (f : McpShim.FetchOutcome) (req : McpShim.Req)
    (hpost : req.httpMethod = "POST") :
    (McpShim.handler parse rand f req).resp.body.isSome = true ∧
    (∀ e, f = .err e → (McpShim.handler parse rand f req).sent ≠ [] →
      (McpShim.handler parse rand f req).resp =
        ⟨500, some (McpShim.unhandledBody e)⟩) ∧
    (∀ s t, f = .ok s t → (McpShim.handler parse rand f req).sent ≠ [] →
      (McpShim.upstreamVal parse s t).getField "result" = none →
      (McpShim.handler parse rand f req).resp =
        McpShim.rpcOk (McpShim.reqId (McpShim.readJson parse req))
          (McpShim.upstreamVal parse s t)) := by
  rw [McpShim.handler_post hpost]
  refine ⟨?_, ?_, ?_⟩
  · rcases McpShim.handleBody_envelope parse rand f (McpShim.readJson parse req)
      with ⟨r, h⟩ | ⟨c, m, h⟩ | ⟨e, _, h⟩ <;> rw [h] <;> rfl
  · intro e hf hs
    rcases McpShim.handleBody_sent parse rand f (McpShim.readJson parse req)
      with h | ⟨_, h⟩
    · exact absurd h hs
    · exact h e hf
  · intro s t hf hs hres
    rcases McpShim.handleBody_sent parse rand f (McpShim.readJson parse req)
      with h | ⟨h, _⟩
    · exact absurd h hs
    · rw [h s t hf, McpShim.resultOrSelf_none hres]

/-- Witness for C5 (amended) at a concrete request: `tools/list` with a
throwing fetch. -/
theorem C5_failures_witness :
    (McpShim.handler (fun _ => none) "" (.err "boom")
      ⟨"POST", some (.obj [("id", .num 8), ("method", .str "tools/list")]),
        ""⟩).resp.body.isSome = true ∧
    (McpShim.handler (fun _ => none) "" (.err "boom")
      ⟨"POST", some (.obj [("id", .num 8), ("method", .str "tools/list")]),
        ""⟩).resp = ⟨500, some (McpShim.unhandledBody "boom")⟩ := by
  have h := C5_failures (fun _ => none) "" (.err "boom")
    ⟨"POST", some (.obj [("id", .num 8), ("method", .str "tools/list")]), ""⟩
    rfl
  exact ⟨h.1, h.2.1 "boom" rfl (by simp [McpShim.handler, McpShim.handleBody,
    McpShim.readJson, McpShim.reqMethod, McpShim.postUpstream, jsOr,
    Json.getField, lookupField, Json.truthy, Json.eqStr])⟩

/-- The stub methods whose responses are literally canned (everything in the
stub set except `create_chat`). -/
def cannedStubMethods : List String :=
  ["initialize", "list_agents", "list_chats", "update_chat", "delete_chat",
   "prompts/list"]

/-- Counterexample to C7 as stated: two invocations of the handler with the
identical `create_chat` request produce different response bodies when the
random source (`Math.random().toString(36)`) differs — the chat id is
freshly generated, not canned. -/
theorem C7_cex :
    (McpShim.handler (fun _ => none) "0.abc" (.err "")
        ⟨"POST", some (.obj [("id", .num 5), ("method", .str "create_chat")]),
          ""⟩).resp.body =
      some (McpShim.rpcOkBody (.num 5) (.obj [("id", .str "abc")])) ∧
    (McpShim.handler (fun _ => none) "0.xyz" (.err "")
        ⟨"POST", some (.obj [("id", .num 5), ("method", .str "create_chat")]),
          ""⟩).resp.body =
      some (McpShim.rpcOkBody (.num 5) (.obj [("id", .str "xyz")])) ∧
    some (McpShim.rpcOkBody (.num 5) (.obj [("id", .str "abc")])) ≠
      some (McpShim.rpcOkBody (.num 5) (.obj [("id", .str "xyz")])) :=
  ⟨rfl, rfl, by simp [McpShim.rpcOkBody]⟩

/-- C7 (amended): for every stub method except `create_chat` the response is
canned — two invocations with identical requests yield identical outputs
regardless of the random source and the fetch behaviour; `create_chat`
instead answers with a freshly generated chat id, the `slice(2)` of the
random string. -/
theorem C7_canned (parse : String → Option Json) (rand rand' : String)
    (f f' : McpShim.FetchOutcome) (req : McpShim.Req) (m : String)
    (hpost : req.httpMethod = "POST")
    (hm : (McpShim.readJson parse req).getField "method" = some (.str m)) :
    (m ∈ cannedStubMethods →
      McpShim.handler parse rand f req = McpShim.handler parse rand' f' req) ∧
    (m = "create_chat" →
      McpShim.handler parse rand f req =
        ⟨McpShim.rpcOk (McpShim.reqId (McpShim.readJson parse req))
           (.obj [("id", .str (rand.drop 2))]), []⟩) := by
  constructor
  · intro hset
    rw [McpShim.handler_post hpost, McpShim.handler_post hpost]
    simp only [cannedStubMethods, List.mem_cons, List.not_mem_nil,
      or_false] at hset
    rcases hset with rfl | rfl | rfl | rfl | rfl | rfl <;>
      simp [McpShim.handleBody, McpShim.reqMethod, hm, jsOr, Json.truthy,
        Json.eqStr]
  · rintro rfl
    rw [McpShim.handler_post hpost]
    simp [McpShim.handleBody, McpShim.reqMethod, hm, jsOr, Json.truthy,
      Json.eqStr]

/-- Witness for C7 (amended) at a concrete `create_chat` request with random
string `0.abc`: the chat id is `abc`. -/
theorem C7_canned_witness :
    ("create_chat" ∈ cannedStubMethods →
      McpShim.handler (fun _ => none) "0.abc" (.err "")
          ⟨"POST", some (.obj [("id", .num 5),
            ("method", .str "create_chat")]), ""⟩ =
        McpShim.handler (fun _ => none) "0.xyz" (.ok 1 "")
          ⟨"POST", some (.obj [("id", .num 5),
            ("method", .str "create_chat")]), ""⟩) ∧
    ("create_chat" = "create_chat" →
      McpShim.handler (fun _ => none) "0.abc" (.err "")
          ⟨"POST", some (.obj [("id", .num 5),
            ("method", .str "create_chat")]), ""⟩ =
        ⟨McpShim.rpcOk (.num 5) (.obj [("id", .str "abc")]), []⟩) :=
  C7_canned (fun _ => none) "0.abc" "0.xyz" (.err "") (.ok 1 "")
    ⟨"POST", some (.obj [("id", .num 5), ("method", .str "create_chat")]), ""⟩
    "create_chat" rfl rfl

/-- C10: for a POST request to the proxy whose body was read successfully,
a successful upstream fetch is forwarded with the upstream's status, the
body verbatim when the upstream content type includes `application/json`
and wrapped as `{upstreamText}` otherwise; a throwing fetch yields 502 with
`{error:'Bad Gateway', details}`. -/
theorem C10_proxy_forward (be : Option String) (s : Int) (ct t e : String)
    (hbe : be = none) :
    (McpProxy.handler be (.ok s ct t) "POST").status = s ∧
    (McpProxy.strIncludes ct.toLower "application/json" = true →
      (McpProxy.handler be (.ok s ct t) "POST").body = .raw t) ∧
    (McpProxy.strIncludes ct.toLower "application/json" = false →
      (McpProxy.handler be (.ok s ct t) "POST").body =
        .json (.obj [("upstreamText", .str t)])) ∧
    McpProxy.handler be (.err e) "POST" =
      ⟨502, .json (.obj [("error", .str "Bad Gateway"),
        ("details", .str e)])⟩ := by
  subst hbe
  by_cases h : McpProxy.strIncludes ct.toLower "application/json" = true <;>
    simp_all [McpProxy.handler]

/-- Witness for C10 at concrete fetch outcomes: a JSON upstream reply with
status 201 is forwarded verbatim, and a thrown fetch gives the 502 body. -/
theorem C10_proxy_forward_witness :
    (McpProxy.handler none (.ok 201 "application/json; charset=utf-8"
      "upstream-reply") "POST").status = 201 ∧
    (McpProxy.strIncludes "application/json; charset=utf-8".toLower
        "application/json" = true →
      (McpProxy.handler none (.ok 201 "application/json; charset=utf-8"
        "upstream-reply") "POST").body = .raw "upstream-reply") ∧
    (McpProxy.strIncludes "application/json; charset=utf-8".toLower
        "application/json" = false →
      (McpProxy.handler none (.ok 201 "application/json; charset=utf-8"
        "upstream-reply") "POST").body =
        .json (.obj [("upstreamText", .str "upstream-reply")])) ∧
    McpProxy.handler none (.err "ECONNREFUSED") "POST" =
      ⟨502, .json (.obj [("error", .str "Bad Gateway"),
        ("details", .str "ECONNREFUSED")])⟩ :=
  C10_proxy_forward none 201 "application/json; charset=utf-8" "upstream-reply"
    "ECONNREFUSED" rfl

/-- C6 (modelled from the spec, the SessionDriver core not being under
`src/`): whatever path a session takes — success, failure (including a
failed handshake), or a timeout at any state — the cleanup phase runs
exactly once (one stream close, one kill), and the child process is not
running once the session ends. -/
theorem C6_cleanup_once (act : SessionDriver.ExternalAction)
    (o : SessionDriver.Oracle) :
    (SessionDriver.runSession act o).1.count .closeStdin = 1 ∧
    (SessionDriver.runSession act o).1.count .kill = 1 ∧
    SessionDriver.processRunning (SessionDriver.runSession act o).1 =
      false := by
  rcases o with ⟨h, c⟩
  cases act <;> cases h <;> first | exact ⟨rfl, rfl, rfl⟩ | skip
  all_goals cases c <;> exact ⟨rfl, rfl, rfl⟩

end Nanobot
